import Mathlib

/-!
Verification of `generate_most_wanted_list` from `code/emp_isme14/most_wanted_otus.py`
(repository seangibbons/isme14).

The procedure is embedded shallowly: the shell commands it formats are built by a pure
function, and its interaction with the file system (log, command handler, TSV/HTML
report, pie-chart images) is recorded as an explicit trace of events.  The inputs it
reads from disk (the BLAST output lines, the candidate FASTA records, the collapsed
biom OTU table) are supplied as an environment.  Python runtime failures that the code
can hit (WorkflowError, IndexError, KeyError, unknown observation id) are modelled as
an error type, and the trace records everything emitted before the failure.
-/

namespace MostWanted

/-- Whitespace characters recognised by Python `str.strip()` and `str.split()`. -/
def isPyWs (c : Char) : Bool :=
  c = ' ' || c = '\t' || c = '\n' || c = '\r' || c = '\x0b' || c = '\x0c'

/-- Model of Python `str.strip()`: drop leading and trailing whitespace. -/
def pyStrip (s : String) : String :=
  ⟨((s.data.dropWhile isPyWs).reverse.dropWhile isPyWs).reverse⟩

/-- Split a character list at every character satisfying `f`, keeping empty fields,
the semantics of Python `str.split(sep)` for a one-character separator. -/
def splitPredList (f : Char → Bool) : List Char → List (List Char)
  | [] => [[]]
  | x :: xs =>
    let r := splitPredList f xs
    if f x then [] :: r
    else
      match r with
      | [] => [[x]]
      | y :: ys => (x :: y) :: ys

/-- Model of Python `s.split(c)` for a single-character separator `c`. -/
def pySplit (c : Char) (s : String) : List String :=
  (splitPredList (fun x => x = c) s.data).map (fun l => ⟨l⟩)

/-- Model of Python `s.split()`: split on whitespace runs, discarding empty fields. -/
def pySplitWs (s : String) : List String :=
  ((splitPredList isPyWs s.data).map (fun l => (⟨l⟩ : String))).filter (fun t => t ≠ "")

/-- Model of Python `s.startswith(pre)`. -/
def pyStartsWith (s pre : String) : Bool := pre.data.isPrefixOf s.data

/-- Model of `os.path.join` for the uses in this script, where the second component
is always a relative path. -/
def pathJoin (a b : String) : String := a ++ "/" ++ b

/-- Model of `os.path.basename`: the part after the final slash. -/
def basename (p : String) : String := ((pySplit '/' p).getLast?).getD ""

/-- Model of `os.path.splitext`: split at the last dot, unless every character before
that dot is itself a dot (leading dots never start an extension). -/
def splitext (p : String) : String × String :=
  let cs := p.data
  match ((List.range cs.length).filter (fun i => cs.getD i ' ' = '.')).getLast? with
  | none => (p, "")
  | some i =>
    if (cs.take i).all (fun c => c = '.') then (p, "")
    else (⟨cs.take i⟩, ⟨cs.drop i⟩)

/-- Model of `qiime.util.add_filename_suffix` (an imported library helper): insert
`sfx` before the extension of the file name of `filepath`, dropping any directories. -/
def add_filename_suffix (filepath sfx : String) : String :=
  let rootExt := splitext (basename filepath)
  rootExt.1 ++ sfx ++ rootExt.2

/-- The parameters of `generate_most_wanted_list`.  The two float parameters are
carried as the strings Python interpolates them to, since only those strings enter
the built commands: `max_gg_similarity_str` stands for `str(max_gg_similarity)` and
`e_value_str` for the expansion of the format `%f` at `e_value`. -/
structure Params where
  output_dir : String
  otu_table_fp : String
  rep_set_fp : String
  gg_fp : String
  nt_fp : String
  mapping_fp : String
  mapping_category : String
  top_n : Nat
  min_abundance : Int
  max_abundance : Int
  min_categories : Int
  max_gg_similarity_str : String
  e_value_str : String
  word_size : Int
  jobs_to_start : Int
  force : Bool

/-- Errors the procedure can raise: `WorkflowError` with a message, a Python
`IndexError` from unchecked indexing, a Python `KeyError` from a dict lookup, and
the biom-table error for an unknown observation id. -/
inductive PyError where
  | workflowError (msg : String)
  | indexError
  | keyError (k : String)
  | unknownId (k : String)
deriving DecidableEq, Repr

/-- Observable actions of the procedure, in program order: opening the workflow log,
handing a batch of (description, command) groups to the injected command handler,
writing a status message to the log, writing to the TSV report, writing to the HTML
report, creating the image directory, and saving a pie-chart PNG. -/
inductive Event where
  | openLog (dir : String)
  | runCommands (cmds : List (List (String × String)))
  | logWrite (msg : String)
  | writeTsv (s : String)
  | writeHtml (s : String)
  | mkdirImg (dir : String)
  | savePng (path : String)
deriving DecidableEq, Repr

/-- Whether an event is the hand-off of a command batch to the command handler. -/
def Event.isRunCmd : Event → Bool
  | .runCommands _ => true
  | _ => false

/-- The collapsed biom OTU table, as the script uses it: its `SampleIds` and, for
each observation, its id, its taxonomy metadata (already rendered as the string that
`%s` would produce), and its row of counts. -/
structure BiomTable where
  SampleIds : List String
  observations : List (String × String × List ℚ)

/-- Model of `getObservationIndex` composed with the row accessors: the first
observation carrying the given id. -/
def BiomTable.findObs (t : BiomTable) (otu : String) : Option (String × String × List ℚ) :=
  t.observations.find? (fun o => o.1 = otu)

/-- Everything `generate_most_wanted_list` reads from the outside world: whether
`makedirs(output_dir)` fails because the directory exists, the lines of the BLAST
output file, the (header, sequence) records of the candidate FASTA file, and the
parsed collapsed OTU table. -/
structure Env where
  dirExists : Bool
  blastLines : List String
  fastaRecords : List (String × String)
  table : BiomTable

/-- The WorkflowError message for an already existing output directory. -/
def dirExistsMsg (d : String) : String :=
  "Output directory \x27" ++ d ++
    "\x27 already exists. Please choose a different directory, or force overwrite with -f."

/-- The WorkflowError message for an observation-count length mismatch. -/
def countsMsg : String :=
  "The number of observation counts does not match the number of samples in the OTU table."

/-- The log message written before reading the BLAST results. -/
def blastLogMsg (top_n : Nat) : String :=
  "Reading in BLAST results, sorting by percent identity, and picking the top " ++
    toString top_n ++ " OTUs.\n\n"

/-- The log message written before reading the candidate sequences and the table. -/
def readLogMsg : String :=
  "Reading in candidate sequences and latest filtered and collapsed OTU table.\n\n"

/-- The log message written before writing the TSV and HTML tables. -/
def writeLogMsg : String :=
  "Writing most wanted OTUs results to TSV and HTML tables.\n\n"

/-- The OTU table with GG reference OTUs filtered out. -/
def novel_otu_table_fp (p : Params) : String :=
  pathJoin p.output_dir (add_filename_suffix p.otu_table_fp "_novel")

/-- The OTU table further filtered to the abundance range. -/
def novel_abund_otu_table_fp (p : Params) : String :=
  pathJoin p.output_dir
    (add_filename_suffix (novel_otu_table_fp p)
      ("_min" ++ toString p.min_abundance ++ "_max" ++ toString p.max_abundance))

/-- The OTU table collapsed by the mapping category. -/
def otu_table_by_samp_type_fp (p : Params) : String :=
  pathJoin p.output_dir
    (add_filename_suffix (novel_abund_otu_table_fp p) ("_" ++ p.mapping_category))

/-- The collapsed OTU table filtered to the minimum number of sample groups. -/
def otu_table_by_samp_type_ms_fp (p : Params) : String :=
  pathJoin p.output_dir
    (add_filename_suffix (otu_table_by_samp_type_fp p)
      ("_ms" ++ toString p.min_categories))

/-- The representative set filtered to the candidate OTUs. -/
def candidate_rep_set_fp (p : Params) : String :=
  pathJoin p.output_dir (add_filename_suffix p.rep_set_fp "_most_wanted_candidates")

/-- The uclust output directory. -/
def uclust_output_dir (p : Params) : String :=
  pathJoin p.output_dir
    ("most_wanted_candidates_" ++ basename p.gg_fp ++ "_" ++ p.max_gg_similarity_str)

/-- The candidate sequences filtered to the uclust failures. -/
def cand_gg_dis_rep_set_fp (p : Params) : String :=
  pathJoin p.output_dir (add_filename_suffix (candidate_rep_set_fp p) "_failures")

/-- The BLAST output directory. -/
def blast_output_dir (p : Params) : String := pathJoin p.output_dir "blast_output"

/-- The list of command groups built and appended, in source order, by
`generate_most_wanted_list` before the single `command_handler` call. -/
def buildCommands (p : Params) : List (List (String × String)) :=
  let novel_otu_table_fp := novel_otu_table_fp p
  let novel_abund_otu_table_fp := novel_abund_otu_table_fp p
  let otu_table_by_samp_type_fp := otu_table_by_samp_type_fp p
  let otu_table_by_samp_type_ms_fp := otu_table_by_samp_type_ms_fp p
  let candidate_rep_set_fp := candidate_rep_set_fp p
  let uclust_output_dir := uclust_output_dir p
  let cand_gg_dis_rep_set_fp := cand_gg_dis_rep_set_fp p
  let blast_output_dir := blast_output_dir p
  [ [("Filtering out all GG reference OTUs",
      "filter_otus_from_otu_table.py -i " ++ p.otu_table_fp ++ " -o " ++
        novel_otu_table_fp ++ " -e " ++ p.gg_fp)],
    [("Filtering out all OTUs that do not fall within the specified abundance threshold",
      "filter_otus_from_otu_table.py -i " ++ novel_otu_table_fp ++ " -o " ++
        novel_abund_otu_table_fp ++ " -n " ++ toString p.min_abundance ++
        " -x " ++ toString p.max_abundance)],
    [("Collapsing OTU table by " ++ p.mapping_category,
      "summarize_otu_by_cat.py -c " ++ novel_abund_otu_table_fp ++ " -o " ++
        otu_table_by_samp_type_fp ++ " -m " ++ p.mapping_category ++ " -i " ++
        p.mapping_fp)],
    [("Filtering OTU table to include only OTUs that appear in at least " ++
        toString p.min_categories ++ " sample groups",
      "filter_otus_from_otu_table.py -i " ++ otu_table_by_samp_type_fp ++ " -o " ++
        otu_table_by_samp_type_ms_fp ++ " -s " ++ toString p.min_categories)],
    [("Filtering representative set to include only the latest candidate OTUs",
      "filter_fasta.py -f " ++ p.rep_set_fp ++ " -o " ++ candidate_rep_set_fp ++
        " -b " ++ otu_table_by_samp_type_ms_fp)],
    [("Running uclust to get list of sequences that don\x27t hit the maximum GG similarity threshold",
      "parallel_pick_otus_uclust_ref.py -i " ++ candidate_rep_set_fp ++ " -o " ++
        uclust_output_dir ++ " -r " ++ p.gg_fp ++ " -s " ++ p.max_gg_similarity_str ++
        " -O " ++ toString p.jobs_to_start)],
    [("Filtering candidate sequences to only include uclust failures",
      "filter_fasta.py -f " ++ candidate_rep_set_fp ++ " -s " ++
        pathJoin uclust_output_dir
          ((splitext (basename candidate_rep_set_fp)).1 ++ "_failures.txt") ++
        " -o " ++ cand_gg_dis_rep_set_fp)],
    [("BLASTing candidate sequences against nt database",
      "parallel_blast.py -i " ++ cand_gg_dis_rep_set_fp ++ " -o " ++ blast_output_dir ++
        " -r " ++ p.nt_fp ++ " -D -e " ++ p.e_value_str ++ " -w " ++
        toString p.word_size ++ " -O " ++ toString p.jobs_to_start)] ]

/-- A parsed BLAST hit: query OTU id, subject id, and the percent identity as the
number produced by `float` on the third field. -/
abbrev Hit := String × String × ℚ

/-- The comparison used by `sorted(top_n_mw, key=itemgetter(2))`: order hits by
their percent-identity component. -/
def hitLE (a b : Hit) : Prop := a.2.2 ≤ b.2.2

instance : DecidableRel hitLE := fun a b => inferInstanceAs (Decidable (a.2.2 ≤ b.2.2))

instance : IsTotal Hit hitLE := ⟨fun a b => le_total a.2.2 b.2.2⟩

instance : IsTrans Hit hitLE := ⟨fun _ _ _ h1 h2 => le_trans h1 h2⟩

/-- The body of the BLAST-parsing loop, at one line: strip the line; if it is
non-empty and not a header, split it on tabs and append the tuple of its first,
second, and (through `pyFloat`, the model of the `float` builtin) third fields.
Indexing past the available fields is the Python IndexError. -/
def blastLineStep (pyFloat : String → ℚ) (acc : List Hit) (line : String) :
    Except PyError (List Hit) :=
  let l := pyStrip line
  if l ≠ "" ∧ pyStartsWith l "#" = false then
    let fs := pySplit '\t' l
    match fs[0]?, fs[1]?, fs[2]? with
    | some f0, some f1, some f2 => .ok (acc ++ [(f0, f1, pyFloat f2)])
    | _, _, _ => .error .indexError
  else .ok acc

/-- The BLAST-parsing loop over the lines of the BLAST output file. -/
def parseBlastAux (pyFloat : String → ℚ) (acc : List Hit) :
    List String → Except PyError (List Hit)
  | [] => .ok acc
  | l :: ls =>
    match blastLineStep pyFloat acc l with
    | .error e => .error e
    | .ok acc2 => parseBlastAux pyFloat acc2 ls

/-- Parse every line of the BLAST output file, starting from the empty list. -/
def parseBlastLines (pyFloat : String → ℚ) (lines : List String) :
    Except PyError (List Hit) :=
  parseBlastAux pyFloat [] lines

/-- Model of `sorted(top_n_mw, key=itemgetter(2))[:top_n]`: sort the hits by percent
identity ascending and keep the first `top_n`. -/
def pickTopN (top_n : Nat) (hits : List Hit) : List Hit :=
  (List.insertionSort hitLE hits).take top_n

/-- The first whitespace-separated token of a FASTA header, after stripping. -/
def firstTok (h : String) : Option String := (pySplitWs (pyStrip h)).head?

/-- One step of building `mw_seqs`: key the record by the first token of its header
(an IndexError if the stripped header has no tokens) and bind it in the dict,
overwriting any earlier binding of the same key. -/
def mwStep (d : String → Option String) (r : String × String) :
    Except PyError (String → Option String) :=
  match pySplitWs (pyStrip r.1) with
  | [] => .error .indexError
  | tok :: _ => .ok (fun k => if k = tok then some r.2 else d k)

/-- The `mw_seqs` building loop over the FASTA records. -/
def buildMwSeqsAux (d : String → Option String) :
    List (String × String) → Except PyError (String → Option String)
  | [] => .ok d
  | r :: rs =>
    match mwStep d r with
    | .error e => .error e
    | .ok d2 => buildMwSeqsAux d2 rs

/-- Build the `mw_seqs` dict from the candidate FASTA records, starting empty. -/
def buildMwSeqs (records : List (String × String)) :
    Except PyError (String → Option String) :=
  buildMwSeqsAux (fun _ => none) records

/-- The TSV header line (written to the TSV file without the abundance column). -/
def tsvHeader : String :=
  "OTU ID\tSequence\tGreengenes taxonomy\tNCBI nt closest match\tNCBI nt % identity"

/-- The columns of the TSV table. -/
def tsvCols : List String := pySplit '\t' tsvHeader

/-- The columns of the HTML table: the TSV header with the abundance column appended,
split on tabs as the source does. -/
def htmlHeaderCols (cat : String) : List String :=
  pySplit '\t' (tsvHeader ++ "\tAbundance by " ++ cat)

/-- The HTML header cells, each column wrapped in a th element. -/
def htmlHeaderStr (cat : String) : String :=
  (htmlHeaderCols cat).foldl (fun acc col => acc ++ "<th>" ++ col ++ "</th>") ""

/-- The values computed by one iteration of the report loop for one selected hit. -/
structure Row where
  otu : String
  seqStr : String
  tax : String
  gbId : String
  ncbiLink : String
  pngPath : String
  tsvLine : String
  htmlLine : String

/-- The body of the report loop at one selected hit `(otu_id, subject_id,
percent_identity)`, with `pyStr` the model of Python `str` on the identity number:
look the OTU up in `mw_seqs` (KeyError if absent), look it up in the table (unknown
id if absent), take the fourth pipe-separated field of the subject id (IndexError if
there are fewer), check the counts length against the sample ids (WorkflowError on
mismatch), and otherwise produce the pie-chart path, the TSV line, and the HTML row. -/
def reportRow (pyStr : ℚ → String) (p : Params) (mwSeqs : String → Option String)
    (tbl : BiomTable) (hit : Hit) : Except PyError Row :=
  match mwSeqs hit.1 with
  | none => .error (.keyError hit.1)
  | some sq =>
    match tbl.findObs hit.1 with
    | none => .error (.unknownId hit.1)
    | some obs =>
      let tax := obs.2.1
      let parts := pySplit '|' hit.2.1
      match parts[3]? with
      | none => .error .indexError
      | some gb_id =>
        let ncbi_link := "http://www.ncbi.nlm.nih.gov/nuccore/" ++ gb_id
        let samp_types := tbl.SampleIds
        let counts := obs.2.2
        if counts.length ≠ samp_types.length then
          .error (.workflowError countsMsg)
        else
          let pie_chart_fp := pathJoin "img"
            ("abundance_by_" ++ p.mapping_category ++ "_" ++ hit.1 ++ ".png")
          .ok { otu := hit.1, seqStr := sq, tax := tax, gbId := gb_id,
                ncbiLink := ncbi_link, pngPath := pie_chart_fp,
                tsvLine := hit.1 ++ "\t" ++ sq ++ "\t" ++ tax ++ "\t" ++ gb_id ++
                  "\t" ++ pyStr hit.2.2 ++ "\n",
                htmlLine := "<tr><td>" ++ hit.1 ++ "</td><td>" ++ sq ++ "</td><td>" ++
                  tax ++ "</td><td><a href=\"" ++ ncbi_link ++
                  "\" target=\"_blank\">" ++ gb_id ++ "</a></td><td>" ++
                  pyStr hit.2.2 ++ "</td><td><img src=\"" ++ pie_chart_fp ++
                  "\" /></td></tr>" }

/-- The file-system actions of one successful report-loop iteration, in order:
create the image directory, save the pie chart under the output directory, write the
TSV line, write the HTML row. -/
def rowEvents (p : Params) (row : Row) : List Event :=
  [.mkdirImg (pathJoin p.output_dir "img"),
   .savePng (pathJoin p.output_dir row.pngPath),
   .writeTsv row.tsvLine,
   .writeHtml row.htmlLine]

/-- The report loop over the selected hits: events accumulate until the first error,
which aborts the run. -/
def reportLoop (pyStr : ℚ → String) (p : Params) (mwSeqs : String → Option String)
    (tbl : BiomTable) : List Hit → List Event × Option PyError
  | [] => ([], none)
  | h :: t =>
    match reportRow pyStr p mwSeqs tbl h with
    | .error e => ([], some e)
    | .ok row =>
      let rest := reportLoop pyStr p mwSeqs tbl t
      (rowEvents p row ++ rest.1, rest.2)

/-- The whole procedure: the trace of events it performs, in order, together with the
error that aborts it, if any.  `pyFloat` models the `float` builtin applied to the
percent-identity field and `pyStr` models `str` applied back to that number. -/
def generate_most_wanted_list (pyFloat : String → ℚ) (pyStr : ℚ → String)
    (p : Params) (env : Env) : List Event × Option PyError :=
  if env.dirExists = true ∧ p.force = false then
    ([], some (.workflowError (dirExistsMsg p.output_dir)))
  else
    let pre1 := [Event.openLog p.output_dir,
                 Event.runCommands (buildCommands p),
                 Event.logWrite (blastLogMsg p.top_n)]
    match parseBlastLines pyFloat env.blastLines with
    | .error e => (pre1, some e)
    | .ok hits =>
      let top_n_mw := pickTopN p.top_n hits
      let pre2 := pre1 ++ [Event.logWrite readLogMsg]
      match buildMwSeqs env.fastaRecords with
      | .error e => (pre2, some e)
      | .ok mwSeqs =>
        let pre3 := pre2 ++ [Event.logWrite writeLogMsg,
                             Event.writeTsv (tsvHeader ++ "\n"),
                             Event.writeHtml ("<table><tr>" ++
                               htmlHeaderStr p.mapping_category ++ "</tr>")]
        match reportLoop pyStr p mwSeqs env.table top_n_mw with
        | (evs, some e) => (pre3 ++ evs, some e)
        | (evs, none) => (pre3 ++ evs ++ [Event.writeHtml "</table>"], none)

/-- Whether an event is the saving of a pie-chart PNG. -/
def Event.isSavePng : Event → Bool
  | .savePng _ => true
  | _ => false

/-- The sequence of the last FASTA record whose first header token is `tok`, the
value a Python dict built by keyed insertion returns for `tok`. -/
def lastTokSeq (tok : String) : List (String × String) → Option String
  | [] => none
  | r :: rs =>
    match lastTokSeq tok rs with
    | some v => some v
    | none =>
      match firstTok r.1 with
      | some t => if t = tok then some r.2 else none
      | none => none

/-! ### Concrete fixtures used by the witnesses -/

/-- A concrete model of the `float` builtin used in witnesses. -/
def floatT : String → ℚ := fun _ => 7

/-- A concrete model of `str` on floats used in witnesses. -/
def strT : ℚ → String := fun _ => "7.0"

/-- Concrete parameters used in witnesses. -/
def paramsT : Params :=
  { output_dir := "out", otu_table_fp := "/d/otu_table.biom",
    rep_set_fp := "/d/rep_set.fasta", gg_fp := "/d/gg.fasta", nt_fp := "/d/nt",
    mapping_fp := "/d/map.txt", mapping_category := "ENV", top_n := 2,
    min_abundance := 10, max_abundance := 58, min_categories := 5,
    max_gg_similarity_str := "0.97", e_value_str := "0.000010", word_size := 28,
    jobs_to_start := 4, force := false }

/-- A concrete `mw_seqs` dict used in witnesses. -/
def mwSeqsT : String → Option String := fun k => if k = "o" then some "ACGT" else none

/-- A concrete collapsed table whose counts length mismatches its sample ids. -/
def tblBadT : BiomTable := { SampleIds := ["s1"], observations := [("o", "tax", [1, 2])] }

/-- A concrete collapsed table whose counts length matches its sample ids. -/
def tblOkT : BiomTable :=
  { SampleIds := ["s1", "s2"], observations := [("o", "tax", [1, 2])] }

/-- A concrete selected hit whose subject id has four pipe-separated fields. -/
def hitOkT : Hit := ("o", "gi|5|gb|X9|", 7)

/-- Concrete FASTA records where a later record shares the first header token. -/
def recsT : List (String × String) := [("o1 desc", "AAA"), ("o1", "CCC")]

/-- The dict that building `mw_seqs` from `recsT` produces. -/
def mwSeqsBuiltT : String → Option String :=
  fun k => if k = "o1" then some "CCC" else if k = "o1" then some "AAA" else none

/-- A concrete environment in which the output directory does not yet exist. -/
def envT : Env :=
  { dirExists := false,
    blastLines := ["# header", "o\tgi|5|gb|X9|\t97.5", ""],
    fastaRecords := [("o desc", "ACGT")],
    table := tblOkT }

/-! ### Lemmas about the splitting primitive -/

theorem splitPredList_ne_nil (f : Char → Bool) (cs : List Char) :
    splitPredList f cs ≠ [] := by
  induction cs with
  | nil => simp [splitPredList]
  | cons x xs ih =>
    simp only [splitPredList]
    split
    · simp
    · split
      · simp
      · simp

theorem splitPredList_append_sep (f : Char → Bool) (sep : Char) (hsep : f sep = true)
    (x y : List Char) :
    splitPredList f (x ++ sep :: y) = splitPredList f x ++ splitPredList f y := by
  induction x with
  | nil => simp [splitPredList, hsep]
  | cons c cs ih =>
    by_cases h : f c
    · simp [splitPredList, h, ih]
    · cases hx : splitPredList f cs with
      | nil => exact absurd hx (splitPredList_ne_nil f cs)
      | cons hd tl =>
        simp [splitPredList, h, ih, hx]

theorem splitPredList_of_no_sep (f : Char → Bool) (x : List Char)
    (h : ∀ c ∈ x, f c = false) : splitPredList f x = [x] := by
  induction x with
  | nil => rfl
  | cons c cs ih =>
    have hc : f c = false := h c (by simp)
    have ih2 := ih (fun d hd => h d (by simp [hd]))
    simp [splitPredList, hc, ih2]

/-! ### C1: sort by percent identity ascending and take the top n -/

/-- C1.  The report rows are `sorted(hits, key=itemgetter(2))[:top_n]`: the selection
has at most `top_n` elements, is ordered by non-decreasing percent identity, consists
of parsed hits, and every selected hit has percent identity at most that of every
parsed hit left unselected. -/
theorem c1_pick_top_n_sorted (n : Nat) (hits : List Hit) :
    (pickTopN n hits).length ≤ n ∧
    List.Pairwise hitLE (pickTopN n hits) ∧
    (∀ x ∈ pickTopN n hits, x ∈ hits) ∧
    (∀ x ∈ pickTopN n hits, ∀ y ∈ hits, y ∉ pickTopN n hits → hitLE x y) := by
  have hsorted : List.Sorted hitLE (List.insertionSort hitLE hits) :=
    List.sorted_insertionSort hitLE hits
  refine ⟨?_, ?_, ?_, ?_⟩
  · simp only [pickTopN]
    exact List.length_take_le n (List.insertionSort hitLE hits)
  · simp only [pickTopN]
    exact List.Pairwise.sublist (List.take_sublist _ _) hsorted
  · intro x hx
    simp only [pickTopN] at hx
    have hx2 := List.take_subset n (List.insertionSort hitLE hits) hx
    rwa [List.mem_insertionSort] at hx2
  · intro x hx y hy hyn
    simp only [pickTopN] at hx hyn
    have hy2 : y ∈ List.insertionSort hitLE hits := by simpa using hy
    have hsplit := List.take_append_drop n (List.insertionSort hitLE hits)
    have hy4 : y ∈ List.drop n (List.insertionSort hitLE hits) := by
      rw [← hsplit] at hy2
      rcases List.mem_append.mp hy2 with h | h
      · exact absurd h hyn
      · exact h
    have hp : List.Pairwise hitLE (List.take n (List.insertionSort hitLE hits) ++
        List.drop n (List.insertionSort hitLE hits)) := by
      rw [hsplit]; exact hsorted
    exact (List.pairwise_append.mp hp).2.2 x hx y hy4

/-- Witness for C1 at a concrete hit list. -/
theorem c1_pick_top_n_sorted_witness :
    (pickTopN 2 [("a", "s", (5 : ℚ)), ("b", "t", 3), ("c", "u", 9)]).length ≤ 2 ∧
    List.Pairwise hitLE (pickTopN 2 [("a", "s", (5 : ℚ)), ("b", "t", 3), ("c", "u", 9)]) ∧
    (∀ x ∈ pickTopN 2 [("a", "s", (5 : ℚ)), ("b", "t", 3), ("c", "u", 9)],
      x ∈ [("a", "s", (5 : ℚ)), ("b", "t", 3), ("c", "u", 9)]) ∧
    (∀ x ∈ pickTopN 2 [("a", "s", (5 : ℚ)), ("b", "t", 3), ("c", "u", 9)],
      ∀ y ∈ [("a", "s", (5 : ℚ)), ("b", "t", 3), ("c", "u", 9)],
        y ∉ pickTopN 2 [("a", "s", (5 : ℚ)), ("b", "t", 3), ("c", "u", 9)] → hitLE x y) :=
  c1_pick_top_n_sorted 2 [("a", "s", (5 : ℚ)), ("b", "t", 3), ("c", "u", 9)]

/-! ### C7: parsing one line of the BLAST output -/

/-- C7.  One line of the BLAST output contributes exactly one tuple, made of the
first, second, and (as a number) third tab-separated fields of the stripped line,
precisely when the stripped line is non-empty and does not start with a hash; empty
and hash-prefixed lines contribute nothing. -/
theorem c7_blast_line_parse (pyFloat : String → ℚ) (acc : List Hit) (line : String) :
    ((pyStrip line = "" ∨ pyStartsWith (pyStrip line) "#" = true) →
      blastLineStep pyFloat acc line = .ok acc) ∧
    (pyStrip line ≠ "" → pyStartsWith (pyStrip line) "#" = false →
      3 ≤ (pySplit '\t' (pyStrip line)).length →
      blastLineStep pyFloat acc line = .ok (acc ++
        [((pySplit '\t' (pyStrip line)).getD 0 "",
          (pySplit '\t' (pyStrip line)).getD 1 "",
          pyFloat ((pySplit '\t' (pyStrip line)).getD 2 ""))])) := by
  constructor
  · intro h
    have hcond : ¬(pyStrip line ≠ "" ∧ pyStartsWith (pyStrip line) "#" = false) := by
      rintro ⟨h1, h2⟩
      rcases h with h | h
      · exact h1 h
      · rw [h] at h2; cases h2
    simp [blastLineStep, hcond]
  · intro h1 h2 h3
    rcases hfs : pySplit '\t' (pyStrip line) with _ | ⟨a, _ | ⟨b, _ | ⟨c, t⟩⟩⟩
    · rw [hfs] at h3; simp at h3
    · rw [hfs] at h3; simp at h3
    · rw [hfs] at h3; simp at h3
    · simp [blastLineStep, h1, h2, hfs]

/-- Witness for C7: a comment line contributes nothing, a data line contributes its
first two fields and the parsed third field. -/
theorem c7_blast_line_parse_witness :
    blastLineStep (fun _ => (7 : ℚ)) [] "# BLASTN 2.2.22" = .ok [] ∧
    blastLineStep (fun _ => (7 : ℚ)) [] "otu1\tgi|5|gb|X9|\t97.5\n" =
      .ok [("otu1", "gi|5|gb|X9|", (7 : ℚ))] := by
  constructor
  · exact (c7_blast_line_parse (fun _ => (7 : ℚ)) [] "# BLASTN 2.2.22").1
      (Or.inr (by decide))
  · have h := (c7_blast_line_parse (fun _ => (7 : ℚ)) [] "otu1\tgi|5|gb|X9|\t97.5\n").2
      (by decide) (by decide) (by decide)
    simpa using h

/-! ### C2: the columns of the TSV and HTML tables -/

/-- C2 counterexample: the abundance-by-category column is in the HTML header but
not in the TSV header, so the two tables do not share the claimed six columns. -/
theorem c2_abundance_column_counterexample :
    tsvCols = ["OTU ID", "Sequence", "Greengenes taxonomy",
      "NCBI nt closest match", "NCBI nt % identity"] ∧
    htmlHeaderCols "ENV" = ["OTU ID", "Sequence", "Greengenes taxonomy",
      "NCBI nt closest match", "NCBI nt % identity", "Abundance by ENV"] ∧
    "Abundance by ENV" ∉ tsvCols := by
  refine ⟨by decide, by decide, by decide⟩

/-- C2 (amended).  The TSV table has exactly the five columns OTU ID, Sequence,
Greengenes taxonomy, NCBI nt closest match, NCBI nt % identity, and the HTML table
has exactly those five plus Abundance by the mapping category: the
abundance-by-category column is present only in the HTML table. -/
theorem c2_header_columns_amended (cat : String)
    (hcat : ∀ c ∈ cat.data, c ≠ '\t') :
    tsvCols = ["OTU ID", "Sequence", "Greengenes taxonomy",
      "NCBI nt closest match", "NCBI nt % identity"] ∧
    htmlHeaderCols cat = ["OTU ID", "Sequence", "Greengenes taxonomy",
      "NCBI nt closest match", "NCBI nt % identity", "Abundance by " ++ cat] := by
  refine ⟨by decide, ?_⟩
  have hdata : (tsvHeader ++ "\tAbundance by " ++ cat).data =
      tsvHeader.data ++ '\t' :: (("Abundance by " : String).data ++ cat.data) := by
    rw [String.data_append, String.data_append]
    rw [show ("\tAbundance by " : String).data =
      '\t' :: ("Abundance by " : String).data from rfl]
    simp
  have hlit : ∀ c ∈ ("Abundance by " : String).data, (decide (c = '\t')) = false := by
    decide
  have hnosep : ∀ c ∈ ("Abundance by " : String).data ++ cat.data,
      (decide (c = '\t')) = false := by
    intro c hc
    rcases List.mem_append.mp hc with h | h
    · exact hlit c h
    · exact decide_eq_false (hcat c h)
  show (splitPredList (fun x => x = '\t')
      (tsvHeader ++ "\tAbundance by " ++ cat).data).map (fun l => (⟨l⟩ : String)) = _
  rw [hdata, splitPredList_append_sep (fun x => x = '\t') '\t' (by decide),
    splitPredList_of_no_sep (fun x => x = '\t') _ hnosep, List.map_append]
  rw [show (splitPredList (fun x => x = '\t') tsvHeader.data).map
      (fun l => (⟨l⟩ : String)) =
      ["OTU ID", "Sequence", "Greengenes taxonomy", "NCBI nt closest match",
       "NCBI nt % identity"] from by decide]
  have hlast : (⟨("Abundance by " : String).data ++ cat.data⟩ : String) =
      "Abundance by " ++ cat := by
    apply String.ext
    rw [String.data_append]
  rw [List.map_singleton, hlast]
  rfl

/-- Witness for the amended C2 at the category BODY_SITE. -/
theorem c2_header_columns_amended_witness :
    (∀ c ∈ ("BODY_SITE" : String).data, c ≠ '\t') ∧
    (tsvCols = ["OTU ID", "Sequence", "Greengenes taxonomy",
      "NCBI nt closest match", "NCBI nt % identity"] ∧
    htmlHeaderCols "BODY_SITE" = ["OTU ID", "Sequence", "Greengenes taxonomy",
      "NCBI nt closest match", "NCBI nt % identity",
      "Abundance by " ++ "BODY_SITE"]) :=
  ⟨by decide, c2_header_columns_amended "BODY_SITE" (by decide)⟩

/-! ### C4: the observation-count length check -/

/-- C4.  For a reported OTU that reaches the abundance computation, a mismatch
between the length of its count vector and the number of sample ids raises the
WorkflowError, and equality lets the row be produced without that error. -/
theorem c4_counts_length_check (pyStr : ℚ → String) (p : Params)
    (mwSeqs : String → Option String) (tbl : BiomTable) (hit : Hit)
    (sq : String) (obs : String × String × List ℚ)
    (h1 : mwSeqs hit.1 = some sq) (h2 : tbl.findObs hit.1 = some obs)
    (h3 : 4 ≤ (pySplit '|' hit.2.1).length) :
    (obs.2.2.length ≠ tbl.SampleIds.length →
      reportRow pyStr p mwSeqs tbl hit = .error (.workflowError countsMsg)) ∧
    (obs.2.2.length = tbl.SampleIds.length →
      ∃ row, reportRow pyStr p mwSeqs tbl hit = .ok row) := by
  have h4 : 3 < (pySplit '|' hit.2.1).length := h3
  have hg : (pySplit '|' hit.2.1)[3]? = some ((pySplit '|' hit.2.1)[3]) :=
    List.getElem?_eq_getElem h4
  constructor
  · intro hne
    simp [reportRow, h1, h2, hg, hne]
  · intro heq
    cases hres : reportRow pyStr p mwSeqs tbl hit with
    | ok row => exact ⟨row, rfl⟩
    | error e => simp [reportRow, h1, h2, hg, heq] at hres

/-- Witness for C4: a two-element count vector against a single sample id raises
the WorkflowError. -/
theorem c4_counts_length_check_witness :
    ([1, 2] : List ℚ).length ≠ tblBadT.SampleIds.length ∧
    reportRow strT paramsT mwSeqsT tblBadT ("o", "gi|5|gb|X9|", 7) =
      .error (.workflowError countsMsg) :=
  ⟨by decide,
    (c4_counts_length_check strT paramsT mwSeqsT tblBadT ("o", "gi|5|gb|X9|", 7)
      "ACGT" ("o", "tax", [1, 2]) (by decide) (by decide) (by decide)).1 (by decide)⟩

/-! ### C8: the fourth pipe-separated field of the subject id -/

/-- C8.  Report generation indexes the fourth pipe-separated field of the subject id
without a guard: with fewer than four fields the row fails with the IndexError, and
on success the GenBank id placed in the report and in the NCBI link is exactly that
fourth field. -/
theorem c8_subject_id_pipe_fields (pyStr : ℚ → String) (p : Params)
    (mwSeqs : String → Option String) (tbl : BiomTable) (hit : Hit)
    (sq : String) (obs : String × String × List ℚ)
    (h1 : mwSeqs hit.1 = some sq) (h2 : tbl.findObs hit.1 = some obs) :
    ((pySplit '|' hit.2.1).length < 4 →
      reportRow pyStr p mwSeqs tbl hit = .error .indexError) ∧
    (∀ row, reportRow pyStr p mwSeqs tbl hit = .ok row →
      row.gbId = (pySplit '|' hit.2.1).getD 3 "" ∧
      row.ncbiLink = "http://www.ncbi.nlm.nih.gov/nuccore/" ++ row.gbId) := by
  constructor
  · intro hlt
    have hnone : (pySplit '|' hit.2.1)[3]? = none := by
      rw [List.getElem?_eq_none_iff]
      omega
    simp [reportRow, h1, h2, hnone]
  · intro row hrow
    rcases hg : (pySplit '|' hit.2.1)[3]? with _ | g
    · simp [reportRow, h1, h2, hg] at hrow
    · have hgetD : (pySplit '|' hit.2.1).getD 3 "" = g := by
        rw [List.getD_eq_getElem?_getD, hg]
        rfl
      simp [reportRow, h1, h2, hg] at hrow
      split at hrow
      · injection hrow with hrow
        rw [← hrow]
        exact ⟨hgetD.symm, rfl⟩
      · exact absurd hrow (by simp)

/-- Witness for C8: a subject id without pipes makes the row fail with the
IndexError. -/
theorem c8_subject_id_pipe_fields_witness :
    (pySplit '|' "X63.1").length < 4 ∧
    reportRow strT paramsT mwSeqsT tblOkT ("o", "X63.1", 7) = .error .indexError :=
  ⟨by decide,
    (c8_subject_id_pipe_fields strT paramsT mwSeqsT tblOkT ("o", "X63.1", 7)
      "ACGT" ("o", "tax", [1, 2]) (by decide) (by decide)).1 (by decide)⟩

/-! ### C9: keying of the candidate FASTA records -/

theorem buildMwSeqsAux_get (records : List (String × String)) :
    ∀ d0 d, buildMwSeqsAux d0 records = .ok d → ∀ tok,
      d tok = match lastTokSeq tok records with
              | some v => some v
              | none => d0 tok := by
  induction records with
  | nil =>
    intro d0 d h tok
    simp only [buildMwSeqsAux] at h
    injection h with h
    subst h
    simp [lastTokSeq]
  | cons r rs ih =>
    intro d0 d h tok
    cases hm : mwStep d0 r with
    | error e => simp [buildMwSeqsAux, hm] at h
    | ok d1 =>
      have h2 : buildMwSeqsAux d1 rs = .ok d := by
        simpa [buildMwSeqsAux, hm] using h
      cases hs : pySplitWs (pyStrip r.1) with
      | nil => simp [mwStep, hs] at hm
      | cons t rest =>
        have hd1 : d1 = fun k => if k = t then some r.2 else d0 k := by
          simp only [mwStep, hs] at hm
          injection hm with hm
          exact hm.symm
        have ihh := ih d1 d h2 tok
        have hft : firstTok r.1 = some t := by simp [firstTok, hs]
        cases hl : lastTokSeq tok rs with
        | some v =>
          rw [hl] at ihh
          simp only [lastTokSeq, hl]
          exact ihh
        | none =>
          rw [hl] at ihh
          simp only [lastTokSeq, hl, hft]
          rw [ihh, hd1]
          by_cases hk : t = tok
          · subst hk
            simp
          · have hk2 : ¬(tok = t) := fun hh => hk hh.symm
            simp [hk, hk2]

/-- C9.  The candidate FASTA is keyed by the first whitespace token of each header,
a later record with the same first token overwriting an earlier one: a lookup
returns the sequence of the last record with that first token, the Sequence column
of a reported row is exactly that sequence, and a selected OTU id that is no first
token of any record makes the row fail with the KeyError. -/
theorem c9_fasta_keying (records : List (String × String))
    (mwSeqs : String → Option String) (h : buildMwSeqs records = .ok mwSeqs) :
    (∀ tok, mwSeqs tok = lastTokSeq tok records) ∧
    (∀ (pyStr : ℚ → String) (p : Params) (tbl : BiomTable) (hit : Hit),
      lastTokSeq hit.1 records = none →
      reportRow pyStr p mwSeqs tbl hit = .error (.keyError hit.1)) ∧
    (∀ (pyStr : ℚ → String) (p : Params) (tbl : BiomTable) (hit : Hit) (row : Row),
      reportRow pyStr p mwSeqs tbl hit = .ok row →
      some row.seqStr = lastTokSeq hit.1 records) := by
  have hget : ∀ tok, mwSeqs tok = lastTokSeq tok records := by
    intro tok
    have hh := buildMwSeqsAux_get records (fun _ => none) mwSeqs h tok
    cases hl : lastTokSeq tok records <;> rw [hl] at hh <;> simp at hh <;> simp [hh]
  refine ⟨hget, ?_, ?_⟩
  · intro pyStr p tbl hit hnone
    have hm : mwSeqs hit.1 = none := by rw [hget, hnone]
    simp [reportRow, hm]
  · intro pyStr p tbl hit row hrow
    cases hm : mwSeqs hit.1 with
    | none => simp [reportRow, hm] at hrow
    | some sq =>
      rw [← hget, hm]
      cases hobs : tbl.findObs hit.1 with
      | none => simp [reportRow, hm, hobs] at hrow
      | some obs =>
        cases hg : (pySplit '|' hit.2.1)[3]? with
        | none => simp [reportRow, hm, hobs, hg] at hrow
        | some g =>
          simp [reportRow, hm, hobs, hg] at hrow
          split at hrow
          · injection hrow with hrow
            rw [← hrow]
          · exact absurd hrow (by simp)

/-- Witness for C9: of two records whose headers share the first token o1, the
later sequence wins the lookup. -/
theorem c9_fasta_keying_witness :
    mwSeqsBuiltT "o1" = lastTokSeq "o1" recsT ∧ mwSeqsBuiltT "o1" = some "CCC" :=
  ⟨(c9_fasta_keying recsT mwSeqsBuiltT (by rfl)).1 "o1", by decide⟩

/-! ### Error-classification and trace lemmas -/

theorem blastLineStep_error (pyFloat : String → ℚ) (acc : List Hit) (line : String)
    (e : PyError) (h : blastLineStep pyFloat acc line = .error e) : e = .indexError := by
  simp only [blastLineStep] at h
  split at h
  · split at h
    all_goals first
      | (injection h with h; exact h.symm)
      | (injection h)
  · injection h

theorem parseBlastAux_error (pyFloat : String → ℚ) :
    ∀ (lines : List String) (acc : List Hit) (e : PyError),
      parseBlastAux pyFloat acc lines = .error e → e = .indexError := by
  intro lines
  induction lines with
  | nil => intro acc e h; simp [parseBlastAux] at h
  | cons l ls ih =>
    intro acc e h
    cases hs : blastLineStep pyFloat acc l with
    | error e2 =>
      simp only [parseBlastAux, hs] at h
      injection h with h
      subst h
      exact blastLineStep_error pyFloat acc l e2 hs
    | ok acc2 =>
      simp only [parseBlastAux, hs] at h
      exact ih acc2 e h

theorem mwStep_error (d : String → Option String) (r : String × String) (e : PyError)
    (h : mwStep d r = .error e) : e = .indexError := by
  simp only [mwStep] at h
  split at h
  · injection h with h; exact h.symm
  · exact absurd h (by simp)

theorem buildMwSeqsAux_error :
    ∀ (records : List (String × String)) (d : String → Option String) (e : PyError),
      buildMwSeqsAux d records = .error e → e = .indexError := by
  intro records
  induction records with
  | nil => intro d e h; simp [buildMwSeqsAux] at h
  | cons r rs ih =>
    intro d e h
    cases hs : mwStep d r with
    | error e2 =>
      simp only [buildMwSeqsAux, hs] at h
      injection h with h
      subst h
      exact mwStep_error d r e2 hs
    | ok d2 =>
      simp only [buildMwSeqsAux, hs] at h
      exact ih d2 e h

theorem reportRow_error (pyStr : ℚ → String) (p : Params)
    (mwSeqs : String → Option String) (tbl : BiomTable) (hit : Hit) (e : PyError)
    (h : reportRow pyStr p mwSeqs tbl hit = .error e) :
    e = .keyError hit.1 ∨ e = .unknownId hit.1 ∨ e = .indexError ∨
      e = .workflowError countsMsg := by
  cases hm : mwSeqs hit.1 with
  | none =>
    simp [reportRow, hm] at h
    exact Or.inl h.symm
  | some sq =>
    cases hobs : tbl.findObs hit.1 with
    | none =>
      simp [reportRow, hm, hobs] at h
      exact Or.inr (Or.inl h.symm)
    | some obs =>
      cases hg : (pySplit '|' hit.2.1)[3]? with
      | none =>
        simp [reportRow, hm, hobs, hg] at h
        exact Or.inr (Or.inr (Or.inl h.symm))
      | some g =>
        simp [reportRow, hm, hobs, hg] at h
        split at h
        · exact absurd h (by simp)
        · injection h with h
          exact Or.inr (Or.inr (Or.inr h.symm))

theorem reportLoop_error (pyStr : ℚ → String) (p : Params)
    (mwSeqs : String → Option String) (tbl : BiomTable) :
    ∀ (hits : List Hit) (e : PyError),
      (reportLoop pyStr p mwSeqs tbl hits).2 = some e →
      ∃ hit, reportRow pyStr p mwSeqs tbl hit = .error e := by
  intro hits
  induction hits with
  | nil => intro e h; simp [reportLoop] at h
  | cons hd t ih =>
    intro e h
    cases hr : reportRow pyStr p mwSeqs tbl hd with
    | error e2 =>
      simp [reportLoop, hr] at h
      subst h
      exact ⟨hd, hr⟩
    | ok row =>
      simp [reportLoop, hr] at h
      exact ih e h

theorem reportLoop_no_runCmd (pyStr : ℚ → String) (p : Params)
    (mwSeqs : String → Option String) (tbl : BiomTable) :
    ∀ (hits : List Hit), ∀ e ∈ (reportLoop pyStr p mwSeqs tbl hits).1,
      e.isRunCmd = false := by
  intro hits
  induction hits with
  | nil => intro e he; simp [reportLoop] at he
  | cons hd t ih =>
    intro e he
    cases hr : reportRow pyStr p mwSeqs tbl hd with
    | error e2 => simp [reportLoop, hr] at he
    | ok row =>
      simp [reportLoop, rowEvents, hr] at he
      rcases he with rfl | rfl | rfl | rfl | he
      · rfl
      · rfl
      · rfl
      · rfl
      · exact ih e he

theorem dirExistsMsg_ne_countsMsg (d : String) : dirExistsMsg d ≠ countsMsg := by
  intro h
  have h1 : (dirExistsMsg d).data.head? = some 'O' := by
    unfold dirExistsMsg
    rw [String.data_append, String.data_append]
    rw [show ("Output directory \x27" : String).data =
      'O' :: ("utput directory \x27" : String).data from rfl]
    rfl
  have h2 : countsMsg.data.head? = some 'T' := rfl
  rw [h, h2] at h1
  exact absurd h1 (by decide)

/-! ### C3: refusing to overwrite an existing output directory -/

/-- C3.  With the output directory already existing and `force` unset, the run
raises the WorkflowError about the existing directory; with `force` set the run
does not raise that error and proceeds (its first action is opening the log). -/
theorem c3_force_flag (pyFloat : String → ℚ) (pyStr : ℚ → String) (p : Params)
    (env : Env) :
    (env.dirExists = true → p.force = false →
      (generate_most_wanted_list pyFloat pyStr p env).2 =
        some (.workflowError (dirExistsMsg p.output_dir))) ∧
    (p.force = true →
      (generate_most_wanted_list pyFloat pyStr p env).1.head? =
        some (.openLog p.output_dir) ∧
      (generate_most_wanted_list pyFloat pyStr p env).2 ≠
        some (.workflowError (dirExistsMsg p.output_dir))) := by
  constructor
  · intro h1 h2
    simp [generate_most_wanted_list, h1, h2]
  · intro hforce
    have hcond : ¬(env.dirExists = true ∧ p.force = false) := by
      rintro ⟨_, h2⟩
      rw [hforce] at h2
      cases h2
    cases hpb : parseBlastLines pyFloat env.blastLines with
    | error e =>
      have he : e = .indexError := parseBlastAux_error pyFloat env.blastLines [] e hpb
      subst he
      constructor
      · simp [generate_most_wanted_list, hcond, hpb]
      · simp [generate_most_wanted_list, hcond, hpb]
    | ok hits =>
      cases hbm : buildMwSeqs env.fastaRecords with
      | error e =>
        have he : e = .indexError := buildMwSeqsAux_error env.fastaRecords _ e hbm
        subst he
        constructor
        · simp [generate_most_wanted_list, hcond, hpb, hbm]
        · simp [generate_most_wanted_list, hcond, hpb, hbm]
      | ok mwSeqs =>
        rcases hrl : reportLoop pyStr p mwSeqs env.table (pickTopN p.top_n hits)
          with ⟨evs, err⟩
        cases err with
        | none =>
          constructor
          · simp [generate_most_wanted_list, hcond, hpb, hbm, hrl]
          · simp [generate_most_wanted_list, hcond, hpb, hbm, hrl]
        | some e =>
          have hne : e ≠ .workflowError (dirExistsMsg p.output_dir) := by
            obtain ⟨hit, hr⟩ := reportLoop_error pyStr p mwSeqs env.table
              (pickTopN p.top_n hits) e (by rw [hrl])
            rcases reportRow_error pyStr p mwSeqs env.table hit e hr
              with h | h | h | h
            · subst h; simp
            · subst h; simp
            · subst h; simp
            · subst h
              intro hcontra
              injection hcontra with hcontra
              exact dirExistsMsg_ne_countsMsg p.output_dir hcontra.symm
          constructor
          · simp [generate_most_wanted_list, hcond, hpb, hbm, hrl]
          · simp [generate_most_wanted_list, hcond, hpb, hbm, hrl, hne]

/-- Witness for C3: with `force` set and the directory existing, the run opens the
log and does not raise the existing-directory error. -/
theorem c3_force_flag_witness :
    ({ paramsT with force := true } : Params).force = true ∧
    ((generate_most_wanted_list floatT strT { paramsT with force := true }
        { envT with dirExists := true }).1.head? =
      some (.openLog ({ paramsT with force := true } : Params).output_dir) ∧
    (generate_most_wanted_list floatT strT { paramsT with force := true }
        { envT with dirExists := true }).2 ≠
      some (.workflowError
        (dirExistsMsg ({ paramsT with force := true } : Params).output_dir))) :=
  ⟨rfl, (c3_force_flag floatT strT { paramsT with force := true }
    { envT with dirExists := true }).2 rfl⟩

/-! ### C10: the directory check precedes every effect -/

/-- C10.  When the run is refused because the output directory exists and `force`
is unset, the trace is empty: no command batch was handed over and no log, report,
or image write happened. -/
theorem c10_check_before_effects (pyFloat : String → ℚ) (pyStr : ℚ → String)
    (p : Params) (env : Env) (h1 : env.dirExists = true) (h2 : p.force = false) :
    generate_most_wanted_list pyFloat pyStr p env =
      ([], some (.workflowError (dirExistsMsg p.output_dir))) := by
  simp [generate_most_wanted_list, h1, h2]

/-- Witness for C10 at the concrete fixtures. -/
theorem c10_check_before_effects_witness :
    ({ envT with dirExists := true } : Env).dirExists = true ∧
    paramsT.force = false ∧
    generate_most_wanted_list floatT strT paramsT { envT with dirExists := true } =
      ([], some (.workflowError (dirExistsMsg "out"))) :=
  ⟨rfl, rfl,
    c10_check_before_effects floatT strT paramsT { envT with dirExists := true } rfl rfl⟩

/-! ### C5: the eight commands, in order, in one batch -/

/-- C5.  The command list built by the procedure is exactly the eight commands of
the pipeline in their fixed order, filtering GG reference OTUs, filtering to the
abundance range, collapsing by the mapping category, filtering to the minimum
number of sample groups, filtering the representative FASTA, running uclust
against GG, filtering to the uclust failures, and BLASTing against nt, each its
own singleton group; and on a run that passes the directory check the whole batch
is handed to the command handler once, right after the log is opened and before
every other event, so before any report post-processing. -/
theorem c5_eight_commands_one_batch (pyFloat : String → ℚ) (pyStr : ℚ → String)
    (p : Params) (env : Env) (h : p.force = true ∨ env.dirExists = false) :
    buildCommands p =
      [ [("Filtering out all GG reference OTUs",
          "filter_otus_from_otu_table.py -i " ++ p.otu_table_fp ++ " -o " ++
            novel_otu_table_fp p ++ " -e " ++ p.gg_fp)],
        [("Filtering out all OTUs that do not fall within the specified abundance threshold",
          "filter_otus_from_otu_table.py -i " ++ novel_otu_table_fp p ++ " -o " ++
            novel_abund_otu_table_fp p ++ " -n " ++ toString p.min_abundance ++
            " -x " ++ toString p.max_abundance)],
        [("Collapsing OTU table by " ++ p.mapping_category,
          "summarize_otu_by_cat.py -c " ++ novel_abund_otu_table_fp p ++ " -o " ++
            otu_table_by_samp_type_fp p ++ " -m " ++ p.mapping_category ++ " -i " ++
            p.mapping_fp)],
        [("Filtering OTU table to include only OTUs that appear in at least " ++
            toString p.min_categories ++ " sample groups",
          "filter_otus_from_otu_table.py -i " ++ otu_table_by_samp_type_fp p ++
            " -o " ++ otu_table_by_samp_type_ms_fp p ++ " -s " ++
            toString p.min_categories)],
        [("Filtering representative set to include only the latest candidate OTUs",
          "filter_fasta.py -f " ++ p.rep_set_fp ++ " -o " ++ candidate_rep_set_fp p ++
            " -b " ++ otu_table_by_samp_type_ms_fp p)],
        [("Running uclust to get list of sequences that don\x27t hit the maximum GG similarity threshold",
          "parallel_pick_otus_uclust_ref.py -i " ++ candidate_rep_set_fp p ++
            " -o " ++ uclust_output_dir p ++ " -r " ++ p.gg_fp ++ " -s " ++
            p.max_gg_similarity_str ++ " -O " ++ toString p.jobs_to_start)],
        [("Filtering candidate sequences to only include uclust failures",
          "filter_fasta.py -f " ++ candidate_rep_set_fp p ++ " -s " ++
            pathJoin (uclust_output_dir p)
              ((splitext (basename (candidate_rep_set_fp p))).1 ++ "_failures.txt") ++
            " -o " ++ cand_gg_dis_rep_set_fp p)],
        [("BLASTing candidate sequences against nt database",
          "parallel_blast.py -i " ++ cand_gg_dis_rep_set_fp p ++ " -o " ++
            blast_output_dir p ++ " -r " ++ p.nt_fp ++ " -D -e " ++ p.e_value_str ++
            " -w " ++ toString p.word_size ++ " -O " ++ toString p.jobs_to_start)] ] ∧
    (buildCommands p).length = 8 ∧
    (∀ b ∈ buildCommands p, b.length = 1) ∧
    (generate_most_wanted_list pyFloat pyStr p env).1.take 2 =
      [Event.openLog p.output_dir, Event.runCommands (buildCommands p)] ∧
    (∀ e ∈ (generate_most_wanted_list pyFloat pyStr p env).1.drop 2,
      e.isRunCmd = false) := by
  have hcond : ¬(env.dirExists = true ∧ p.force = false) := by
    rintro ⟨h1, h2⟩
    rcases h with h | h
    · rw [h] at h2; cases h2
    · rw [h] at h1; cases h1
  refine ⟨rfl, rfl, ?_, ?_, ?_⟩
  · intro b hb
    simp [buildCommands] at hb
    rcases hb with rfl | rfl | rfl | rfl | rfl | rfl | rfl | rfl
    all_goals rfl
  · cases hpb : parseBlastLines pyFloat env.blastLines with
    | error e => simp [generate_most_wanted_list, hcond, hpb]
    | ok hits =>
      cases hbm : buildMwSeqs env.fastaRecords with
      | error e => simp [generate_most_wanted_list, hcond, hpb, hbm]
      | ok mwSeqs =>
        rcases hrl : reportLoop pyStr p mwSeqs env.table (pickTopN p.top_n hits)
          with ⟨evs, err⟩
        cases err with
        | none => simp [generate_most_wanted_list, hcond, hpb, hbm, hrl]
        | some e => simp [generate_most_wanted_list, hcond, hpb, hbm, hrl]
  · intro e he
    cases hpb : parseBlastLines pyFloat env.blastLines with
    | error e2 =>
      simp [generate_most_wanted_list, hcond, hpb] at he
      subst he
      rfl
    | ok hits =>
      cases hbm : buildMwSeqs env.fastaRecords with
      | error e2 =>
        simp [generate_most_wanted_list, hcond, hpb, hbm] at he
        rcases he with rfl | rfl
        · rfl
        · rfl
      | ok mwSeqs =>
        have hevs : ∀ x ∈ (reportLoop pyStr p mwSeqs env.table
            (pickTopN p.top_n hits)).1, Event.isRunCmd x = false :=
          fun x hx => reportLoop_no_runCmd pyStr p mwSeqs env.table
            (pickTopN p.top_n hits) x hx
        rcases hrl : reportLoop pyStr p mwSeqs env.table (pickTopN p.top_n hits)
          with ⟨evs, err⟩
        rw [hrl] at hevs
        cases err with
        | none =>
          simp [generate_most_wanted_list, hcond, hpb, hbm, hrl] at he
          rcases he with rfl | rfl | rfl | rfl | rfl | he | rfl
          · rfl
          · rfl
          · rfl
          · rfl
          · rfl
          · exact hevs e he
          · rfl
        | some e2 =>
          simp [generate_most_wanted_list, hcond, hpb, hbm, hrl] at he
          rcases he with rfl | rfl | rfl | rfl | rfl | he
          · rfl
          · rfl
          · rfl
          · rfl
          · rfl
          · exact hevs e he

/-- Witness for C5: on the concrete fixtures, the trace opens the log and then
hands over the built batch. -/
theorem c5_eight_commands_one_batch_witness :
    (paramsT.force = true ∨ envT.dirExists = false) ∧
    (generate_most_wanted_list floatT strT paramsT envT).1.take 2 =
      [Event.openLog paramsT.output_dir, Event.runCommands (buildCommands paramsT)] :=
  ⟨Or.inr rfl,
    (c5_eight_commands_one_batch floatT strT paramsT envT (Or.inr rfl)).2.2.2.1⟩

/-! ### C6: one pie chart per reported OTU, referenced by the HTML row -/

/-- C6.  Each successful report-loop iteration saves exactly one PNG, at the
relative path img/abundance_by_(mapping category)_(OTU id).png joined under the
output directory, and its HTML row embeds exactly that relative path in its img
tag; over a successful run the number of saved PNGs equals the number of reported
OTUs. -/
theorem c6_pie_chart_per_reported_otu (pyStr : ℚ → String) (p : Params)
    (mwSeqs : String → Option String) (tbl : BiomTable) :
    (∀ (hit : Hit) (row : Row), reportRow pyStr p mwSeqs tbl hit = .ok row →
      row.otu = hit.1 ∧
      row.pngPath = pathJoin "img"
        ("abundance_by_" ++ p.mapping_category ++ "_" ++ hit.1 ++ ".png") ∧
      (rowEvents p row).filter Event.isSavePng =
        [.savePng (pathJoin p.output_dir row.pngPath)] ∧
      row.htmlLine = "<tr><td>" ++ row.otu ++ "</td><td>" ++ row.seqStr ++
        "</td><td>" ++ row.tax ++ "</td><td><a href=\"" ++ row.ncbiLink ++
        "\" target=\"_blank\">" ++ row.gbId ++ "</a></td><td>" ++ pyStr hit.2.2 ++
        "</td><td><img src=\"" ++ row.pngPath ++ "\" /></td></tr>") ∧
    (∀ hits : List Hit, (reportLoop pyStr p mwSeqs tbl hits).2 = none →
      ((reportLoop pyStr p mwSeqs tbl hits).1.filter Event.isSavePng).length =
        hits.length) := by
  constructor
  · intro hit row hrow
    cases hm : mwSeqs hit.1 with
    | none => simp [reportRow, hm] at hrow
    | some sq =>
      cases hobs : tbl.findObs hit.1 with
      | none => simp [reportRow, hm, hobs] at hrow
      | some obs =>
        cases hg : (pySplit '|' hit.2.1)[3]? with
        | none => simp [reportRow, hm, hobs, hg] at hrow
        | some g =>
          simp [reportRow, hm, hobs, hg] at hrow
          split at hrow
          · injection hrow with hrow
            subst hrow
            refine ⟨rfl, rfl, ?_, rfl⟩
            simp [rowEvents, Event.isSavePng]
          · exact absurd hrow (by simp)
  · intro hits
    induction hits with
    | nil => intro _; simp [reportLoop]
    | cons hd t ih =>
      intro hnone
      cases hr : reportRow pyStr p mwSeqs tbl hd with
      | error e2 => simp [reportLoop, hr] at hnone
      | ok row =>
        simp only [reportLoop, hr] at hnone ⊢
        rw [List.filter_append]
        have hrow : (rowEvents p row).filter Event.isSavePng =
            [.savePng (pathJoin p.output_dir row.pngPath)] := by
          simp [rowEvents, Event.isSavePng]
        rw [hrow]
        simp only [List.length_append, List.length_cons, List.length_nil]
        have := ih hnone
        omega

/-- Witness for C6: one reported OTU yields exactly one saved PNG. -/
theorem c6_pie_chart_per_reported_otu_witness :
    (reportLoop strT paramsT mwSeqsT tblOkT [hitOkT]).2 = none ∧
    ((reportLoop strT paramsT mwSeqsT tblOkT [hitOkT]).1.filter
      Event.isSavePng).length = 1 :=
  ⟨by decide,
    (c6_pie_chart_per_reported_otu strT paramsT mwSeqsT tblOkT).2 [hitOkT] (by decide)⟩

end MostWanted
